import Mathlib

/-!
Shallow embedding of the simulation core of the EPSTEIN-JETS arcade
flight-racing game, together with proofs about the claims of its
specification.

JavaScript numbers are modelled as real numbers (`ℝ`) for the physics,
collision and race-session code, and as rationals (`ℚ`) for the XP/leveling
arithmetic (which uses only `+`, `-`, comparison, `Math.pow` on 1.15 and
`Math.floor`).  Booleans are `Bool`, nullable values are `Option`,
JS arrays are `List`.  `Math.random()` samples are injected as explicit
arguments (`rand : ℕ → ℝ`), following the specification's own advice that a
faithful reimplementation should inject a seeded generator.

Sources embedded:
  * the physics/collision module (`updatePhysics`, `applyDamage`,
    `applyPowerupToPlane`, `checkCheckpointCollision`,
    `checkObstacleCollision`, `checkPowerupCollision`, vector helpers),
  * `store.ts` (`addXP`, `calculateStars`, `startRace`),
  * `tracks.ts` (`resetTrack`, the `starTimes` construction),
  * the per-tick game loop of `App.tsx` (countdown, checkpoint / obstacle /
    powerup resolution, combo and scoring, AI steering, crash and finish
    checks, `generateResult`).

Presentation-only record fields (names, descriptions, colors, audio, UI
flags) are omitted from the embedded structures; every field read or
written by the embedded operations is present.
-/

namespace EpsteinJets

inductive Weather
  | clear | cloudy | rain | storm | snow | fog | sandstorm
deriving DecidableEq, Repr

inductive GameState
  | menu | loading | playing | paused | finished | crashed | countdown
deriving DecidableEq, Repr

inductive GameMode
  | career | timeTrial | obstacle | freestyle | multiplayer
deriving DecidableEq, Repr

inductive PowerupType
  | nitro | shield | lightning | magnet | timeSlow | ghost | tornado
  | doublePoints | repair | mystery
deriving DecidableEq, Repr

inductive Difficulty
  | easy | medium | hard
deriving DecidableEq, Repr

inductive ObstacleKind
  | static | moving | destructible
deriving DecidableEq, Repr

inductive MoveAxis
  | x | y | z
deriving DecidableEq, Repr

structure Vec3 where
  x : ℝ
  y : ℝ
  z : ℝ

structure PhysicsInput where
  pitch : ℝ
  yaw : ℝ
  roll : ℝ
  throttle : ℝ
  boost : Bool
  brake : Bool

structure PlaneState where
  position : Vec3
  velocity : Vec3
  rotation : Vec3
  speed : ℝ
  throttle : ℝ
  health : ℝ
  maxHealth : ℝ
  boost : ℝ
  maxBoost : ℝ
  altitude : ℝ
  gForce : ℝ
  stalling : Bool
  damage : ℕ
  activePowerup : Option PowerupType
  powerupTimer : ℝ
  trailPoints : List Vec3

structure WeatherState where
  current : Weather
  intensity : ℝ
  windDirection : Vec3
  windSpeed : ℝ
  visibility : ℝ
  precipitation : ℝ
  lightningTimer : ℝ

structure MovePattern where
  axis : MoveAxis
  range : ℝ
  speed : ℝ

structure Checkpoint where
  id : ℕ
  position : Vec3
  radius : ℝ
  passed : Bool
  isFinish : Bool
  nextDirection : Vec3

structure Obstacle where
  id : ℕ
  position : Vec3
  size : Vec3
  kind : ObstacleKind
  movePattern : Option MovePattern
  health : ℕ
  destroyed : Bool

structure Powerup where
  id : ℕ
  kind : PowerupType
  position : Vec3
  collected : Bool
  respawnTimer : ℝ
  active : Bool

noncomputable section

/-- `vec3(x,y,z)` of the source. -/
def vec3 (x y z : ℝ) : Vec3 := ⟨x, y, z⟩

def addVec3 (a b : Vec3) : Vec3 := ⟨a.x + b.x, a.y + b.y, a.z + b.z⟩

def subVec3 (a b : Vec3) : Vec3 := ⟨a.x - b.x, a.y - b.y, a.z - b.z⟩

def scaleVec3 (v : Vec3) (s : ℝ) : Vec3 := ⟨v.x * s, v.y * s, v.z * s⟩

def lengthVec3 (v : Vec3) : ℝ := Real.sqrt (v.x * v.x + v.y * v.y + v.z * v.z)

def distVec3 (a b : Vec3) : ℝ := lengthVec3 (subVec3 a b)

def dotVec3 (a b : Vec3) : ℝ := a.x * b.x + a.y * b.y + a.z * b.z

-- Physics constants of the source module.
def GRAVITY : ℝ := 9.81
def AIR_DENSITY : ℝ := 1.225
def WING_AREA : ℝ := 0.5
def DRAG_COEFFICIENT : ℝ := 0.03
def LIFT_COEFFICIENT : ℝ := 1.2
def MAX_SPEED : ℝ := 500
def MIN_SPEED : ℝ := 20
def STALL_SPEED : ℝ := 30
def ACCELERATION : ℝ := 120
def TURN_RATE : ℝ := 2.5
def PITCH_RATE : ℝ := 2.0
def ROLL_RATE : ℝ := 3.0
def BOOST_MULTIPLIER : ℝ := 3.0
def BOOST_DRAIN_RATE : ℝ := 33
def BOOST_CHARGE_RATE : ℝ := 5

/-- `createPlaneState()` of the source. -/
def createPlaneState : PlaneState where
  position := vec3 0 50 0
  velocity := vec3 0 0 80
  rotation := vec3 0 0 0
  speed := 80
  throttle := 0.5
  health := 100
  maxHealth := 100
  boost := 100
  maxBoost := 100
  altitude := 50
  gForce := 1
  stalling := false
  damage := 0
  activePowerup := none
  powerupTimer := 0
  trailPoints := []

/-- The speed clamp `Math.max(MIN_SPEED, Math.min(MAX_SPEED, s))` of
`updatePhysics`. -/
def clampSpeed (s : ℝ) : ℝ := max MIN_SPEED (min MAX_SPEED s)

/-- The thrust/boost-fuel branch of `updatePhysics` (source lines
"Calculate thrust"): returns the (possibly boosted) thrust and the new
boost fuel. -/
def thrustAndBoost (inputBoost : Bool) (thrust boost maxBoost effectiveDt : ℝ) :
    ℝ × ℝ :=
  if inputBoost ∧ boost > 0 then
    (thrust * BOOST_MULTIPLIER, max 0 (boost - BOOST_DRAIN_RATE * effectiveDt))
  else if ¬ inputBoost then
    (thrust, min maxBoost (boost + BOOST_CHARGE_RATE * effectiveDt))
  else
    (thrust, boost)

/-- `updatePhysics(plane, input, dt, weather, timeFactor)` of the source,
translated statement by statement.  The sequential mutations of the source
become a chain of `let` bindings; each binding is annotated with the source
statement it embeds. -/
def updatePhysics (plane : PlaneState) (input : PhysicsInput) (dt : ℝ)
    (weather : WeatherState) (timeFactor : ℝ) : PlaneState :=
  let effectiveDt := dt * timeFactor
  -- Throttle: clamp input to [0,1]
  let throttle := max 0 (min 1 input.throttle)
  -- Calculate thrust, drain/recharge boost
  let tb := thrustAndBoost input.boost (throttle * ACCELERATION) plane.boost
    plane.maxBoost effectiveDt
  -- Brake
  let thrust := if input.brake then tb.1 * 0.3 else tb.1
  let boost := tb.2
  -- Speed calculation with drag
  let dragForce := 0.5 * AIR_DENSITY * DRAG_COEFFICIENT * WING_AREA *
    plane.speed * plane.speed
  let liftForce := 0.5 * AIR_DENSITY * LIFT_COEFFICIENT * WING_AREA *
    plane.speed * plane.speed
  let speed1 := plane.speed + (thrust - dragForce * 0.01) * effectiveDt
  -- Weather effects on handling (the three source `if`s are mutually
  -- exclusive assignments to the pair of modifiers)
  let weatherTurnMod : ℝ :=
    if weather.current = .rain then 0.8
    else if weather.current = .storm then 0.6
    else if weather.current = .snow then 0.7 else 1.0
  let weatherDragMod : ℝ :=
    if weather.current = .rain then 1.1
    else if weather.current = .storm then 1.2
    else if weather.current = .snow then 1.05 else 1.0
  let speed2 := speed1 * (1 - (weatherDragMod - 1) * effectiveDt)
  -- Stall check
  let stalling1 : Bool := decide (speed2 < STALL_SPEED)
  -- (the stall sink written into velocity.y here is a dead store in the
  -- source: the whole velocity vector is rebuilt from rotation below)
  let velYStall := if stalling1 then plane.velocity.y - GRAVITY * 2 * effectiveDt
    else plane.velocity.y
  let speed3 := if stalling1 then max 10 speed2 else speed2
  -- Clamp speed
  let speed4 := clampSpeed speed3
  -- Ghost powerup prevents stalling
  let stalling : Bool := if plane.activePowerup = some .ghost then false
    else stalling1
  -- Nitro speed override
  let speed := if plane.activePowerup = some .nitro then
    min MAX_SPEED (speed4 * 1.02) else speed4
  -- Rotation updates, pitch clamp, roll auto-stabilize
  let turnMod := weatherTurnMod * (if stalling then 0.3 else 1)
  let rotX := max (-(Real.pi / 3)) (min (Real.pi / 3)
    (plane.rotation.x + input.pitch * PITCH_RATE * turnMod * effectiveDt))
  let rotY := plane.rotation.y + input.yaw * TURN_RATE * turnMod * effectiveDt
  let rotZ := (plane.rotation.z + input.roll * ROLL_RATE * turnMod * effectiveDt)
    * 0.95
  -- G-force calculation
  let turnG := |input.yaw| * (speed / 100) * 3
  let pitchG := |input.pitch| * (speed / 100) * 2
  let gForce := 1 + turnG + pitchG
  -- Calculate velocity from rotation + speed, then add wind (x and z only)
  let vel1 : Vec3 :=
    { x := Real.sin rotY * Real.cos rotX * speed
        + weather.windDirection.x * weather.windSpeed * effectiveDt
      y := -Real.sin rotX * speed +
        (if stalling then -(GRAVITY * 2) else (liftForce * 0.0001 - GRAVITY) * 0.1)
      z := Real.cos rotY * Real.cos rotX * speed
        + weather.windDirection.z * weather.windSpeed * effectiveDt }
  -- Update position
  let pos1 := addVec3 plane.position (scaleVec3 vel1 effectiveDt)
  -- Altitude (read before the ground clamp below, as in the source)
  let altitude := max 0 pos1.y
  -- Ground collision
  let groundHit : Bool := decide (pos1.y < 2)
  let pos2 := if groundHit then { pos1 with y := 2 } else pos1
  let vel2 := if groundHit then { vel1 with y := |vel1.y| * 0.3 } else vel1
  let health := if groundHit ∧ speed > 50 then plane.health - 10 else plane.health
  let damage := if groundHit ∧ speed > 50 then plane.damage + 1 else plane.damage
  -- Ceiling
  let ceilHit : Bool := decide (pos2.y > 500)
  let pos3 := if ceilHit then { pos2 with y := 500 } else pos2
  let vel3 := if ceilHit then { vel2 with y := -10 } else vel2
  -- Powerup timer
  let pw : Option PowerupType × ℝ :=
    if plane.activePowerup.isSome ∧ plane.powerupTimer > 0 then
      if plane.powerupTimer - effectiveDt ≤ 0 then (none, 0)
      else (plane.activePowerup, plane.powerupTimer - effectiveDt)
    else (plane.activePowerup, plane.powerupTimer)
  -- Trail points: prepend, truncate (slice(0, 50))
  let trail := pos3 :: plane.trailPoints.take 50
  -- velYStall is the dead store noted above; keep the binder used
  let _ := velYStall
  { position := pos3
    velocity := vel3
    rotation := ⟨rotX, rotY, rotZ⟩
    speed := speed
    throttle := throttle
    health := health
    maxHealth := plane.maxHealth
    boost := boost
    maxBoost := plane.maxBoost
    altitude := altitude
    gForce := gForce
    stalling := stalling
    damage := damage
    activePowerup := pw.1
    powerupTimer := pw.2
    trailPoints := trail }

/-- `checkCheckpointCollision` of the source, as a proposition. -/
def checkCheckpointCollision (plane : PlaneState) (checkpoint : Checkpoint) :
    Prop :=
  checkpoint.passed = false ∧
    distVec3 plane.position checkpoint.position < checkpoint.radius

/-- `checkObstacleCollision` of the source, as a proposition (axis-aligned
box test; "ghost" passes through everything). -/
def checkObstacleCollision (plane : PlaneState) (obstacle : Obstacle) : Prop :=
  obstacle.destroyed = false ∧
    plane.activePowerup ≠ some .ghost ∧
    |plane.position.x - obstacle.position.x| < obstacle.size.x ∧
    |plane.position.y - obstacle.position.y| < obstacle.size.y ∧
    |plane.position.z - obstacle.position.z| < obstacle.size.z

/-- `checkPowerupCollision` of the source: the collection radius is 5,
expanded to 30 under an active magnet effect. -/
def checkPowerupCollision (plane : PlaneState) (powerup : Powerup) : Prop :=
  powerup.collected = false ∧
    distVec3 plane.position powerup.position <
      (if plane.activePowerup = some .magnet then 30 else 5)

instance (plane : PlaneState) (checkpoint : Checkpoint) :
    Decidable (checkCheckpointCollision plane checkpoint) := by
  unfold checkCheckpointCollision; infer_instance

instance (plane : PlaneState) (obstacle : Obstacle) :
    Decidable (checkObstacleCollision plane obstacle) := by
  unfold checkObstacleCollision; infer_instance

instance (plane : PlaneState) (powerup : Powerup) :
    Decidable (checkPowerupCollision plane powerup) := by
  unfold checkPowerupCollision; infer_instance

/-- `applyDamage(plane, amount)` of the source: an active shield is consumed
instead of reducing health; otherwise health drops (floored at 0) and the
damage counter increments. -/
def applyDamage (plane : PlaneState) (amount : ℝ) : PlaneState :=
  if plane.activePowerup = some .shield then
    { plane with activePowerup := none, powerupTimer := 0 }
  else
    { plane with
      health := max 0 (plane.health - amount),
      damage := plane.damage + 1 }

/-- The `durations` table of `applyPowerupToPlane`. -/
def powerupDuration : PowerupType → ℝ
  | .nitro => 3
  | .shield => 10
  | .lightning => 0
  | .magnet => 8
  | .timeSlow => 5
  | .ghost => 3
  | .tornado => 5
  | .doublePoints => 10
  | .repair => 0
  | .mystery => 0

/-- The `types` list that the mystery powerup re-rolls from in the source. -/
def mysteryTypes : List PowerupType :=
  [.nitro, .shield, .magnet, .timeSlow, .ghost, .doublePoints]

/-- `applyPowerupToPlane(plane, type)` of the source.  `rand` stands for the
`Math.random()` sample consulted by the mystery re-roll (for
`0 ≤ rand < 1` the index `⌊rand * 6⌋` is within the list, so the `getD`
default is never used). -/
def applyPowerupToPlane (plane : PlaneState) (ty : PowerupType) (rand : ℝ) :
    PlaneState :=
  if ty = .repair then
    { plane with health := plane.maxHealth, damage := 0 }
  else
    let ty2 := if ty = .mystery then
      mysteryTypes.getD (⌊rand * (mysteryTypes.length : ℝ)⌋).toNat .nitro
      else ty
    -- JS `durations[type] || 5`: a zero duration is falsy and yields 5
    { plane with
      activePowerup := some ty2,
      powerupTimer := if powerupDuration ty2 = 0 then 5 else powerupDuration ty2 }

/-! ### Tracks, missions, session state -/

structure Track where
  id : String
  checkpoints : List Checkpoint
  obstacles : List Obstacle
  powerups : List Powerup
  startPosition : Vec3
  weather : Weather
  laps : ℕ
  parTime : ℝ
  starTimes : ℝ × ℝ × ℝ

/-- Only the mission id is consulted by the embedded operations
(`startRace` looks missions up by id); the remaining fields are
objective/presentation data. -/
structure Mission where
  id : ℕ

structure AIOpponent where
  id : String
  difficulty : Difficulty
  position : Vec3
  rotation : Vec3
  speed : ℝ
  currentCheckpoint : ℕ
  progress : ℕ

structure RaceResult where
  position : ℕ
  time : ℝ
  bestLap : ℝ
  coins : ℤ
  xp : ℤ
  stars : ℕ
  checkpointsPassed : ℕ
  totalCheckpoints : ℕ
  damagesTaken : ℕ
  powerupsCollected : ℕ
  tricksPerformed : ℕ
  topSpeed : ℝ
  averageSpeed : ℝ

/-- The slice of the ambient `GameStore` of `store.ts` that the simulation
core reads or writes (profile, notifications, settings, liveries and other
UI/persistence fields are omitted). -/
structure GameStore where
  screen : String
  gameState : GameState
  gameMode : GameMode
  currentTrack : Option Track
  currentMission : Option Mission
  plane : PlaneState
  opponents : List AIOpponent
  raceTime : ℝ
  lapTime : ℝ
  currentLap : ℕ
  totalLaps : ℕ
  countdown : ℝ
  raceResult : Option RaceResult
  score : ℝ
  combo : ℝ
  comboTimer : ℝ
  weather : WeatherState
  showPause : Bool
  tracks : List Track
  missions : List Mission

/-- The `starTimes` array built by `makeCircularTrack` in `tracks.ts`:
`[parTime, parTime * 0.8, parTime * 0.6]`. -/
def circularStarTimes (parTime : ℝ) : ℝ × ℝ × ℝ :=
  (parTime, parTime * 0.8, parTime * 0.6)

/-- The `starTimes` array built by `makeFigure8Track` in `tracks.ts`. -/
def figure8StarTimes : ℝ × ℝ × ℝ := (90, 72, 54)

/-- `resetTrack(track)` of `tracks.ts`. -/
def resetTrack (track : Track) : Track :=
  { track with
    checkpoints := track.checkpoints.map (fun cp => { cp with passed := false }),
    obstacles := track.obstacles.map (fun obs => { obs with destroyed := false }),
    powerups := track.powerups.map
      (fun pu => { pu with collected := false, respawnTimer := 0, active := true }) }

/-- `calculateStars(time, starTimes)` of `store.ts`: checks
`starTimes[2]`, then `starTimes[1]`, then `starTimes[0]`. -/
def calculateStars (time : ℝ) (starTimes : ℝ × ℝ × ℝ) : ℕ :=
  if time ≤ starTimes.2.2 then 3
  else if time ≤ starTimes.2.1 then 2
  else if time ≤ starTimes.1 then 1
  else 0

/-- `startRace(store, trackId, mode, missionId)` of `store.ts`.  `rng`
stands for the `Math.random()` samples used to seed the wind direction and
lightning timer. -/
def startRace (store : GameStore) (trackId : String) (mode : GameMode)
    (missionId : Option ℕ) (rng : ℕ → ℝ) : GameStore :=
  match store.tracks.find? (fun t => t.id == trackId) with
  | none => store
  | some track =>
    let resetedTrack := resetTrack track
    let mission := missionId.bind (fun mid => store.missions.find? (fun m => m.id == mid))
    let opponents : List AIOpponent :=
      if mode = .career then
        [ { id := "ai_1", difficulty := .medium,
            position := vec3 (track.startPosition.x + 15) track.startPosition.y
              track.startPosition.z,
            rotation := vec3 0 0 0, speed := 70, currentCheckpoint := 0,
            progress := 0 },
          { id := "ai_2", difficulty := .easy,
            position := vec3 (track.startPosition.x - 15) track.startPosition.y
              track.startPosition.z,
            rotation := vec3 0 0 0, speed := 65, currentCheckpoint := 0,
            progress := 0 } ]
      else []
    { store with
      screen := "game",
      gameState := .countdown,
      gameMode := mode,
      currentTrack := some resetedTrack,
      currentMission := mission,
      plane := { createPlaneState with position := track.startPosition },
      opponents := opponents,
      raceTime := 0,
      lapTime := 0,
      currentLap := 1,
      totalLaps := track.laps,
      countdown := 3,
      raceResult := none,
      score := 0,
      combo := 1,
      comboTimer := 0,
      showPause := false,
      weather := {
        current := track.weather,
        intensity := if track.weather = .clear then 0 else 0.5,
        windDirection := vec3 (rng 0 - 0.5) 0 (rng 1 - 0.5),
        windSpeed := if track.weather = .storm then 15
          else if track.weather = .rain then 8 else 2,
        visibility := if track.weather = .fog then 20
          else if track.weather = .rain then 100 else 1000,
        precipitation := if track.weather = .rain then 0.7
          else if track.weather = .snow then 0.5 else 0,
        lightningTimer := if track.weather = .storm then 5 + rng 2 * 10 else 0 } }

/-! ### The per-tick game loop of `App.tsx` -/

/-- Accumulator for the sequential side effects of the checkpoint `map` of
the game loop (`newScore`, `newCombo`, `newComboTimer`, `newLap`,
`finished`). -/
structure CPAcc where
  score : ℝ
  combo : ℝ
  comboTimer : ℝ
  lap : ℕ
  finished : Bool

/-- One iteration of the checkpoint-collision `map` of the game loop.
`allCps` is the checkpoint array as it stood when the `map` started (the
source's `newTrack.checkpoints`, reassigned only after the `map`
completes). -/
def stepCheckpoint (plane : PlaneState) (allCps : List Checkpoint)
    (totalLaps : ℕ) (s : CPAcc) (cp : Checkpoint) : Checkpoint × CPAcc :=
  if checkCheckpointCollision plane cp then
    let s1 : CPAcc :=
      { score := s.score + 100 * s.combo, combo := min (s.combo + 1) 10,
        comboTimer := 5, lap := s.lap, finished := s.finished }
    if cp.isFinish = true ∧ ∀ c ∈ allCps, c.id = cp.id ∨ c.passed = true then
      if totalLaps ≤ s.lap then
        ({ cp with passed := true }, { s1 with finished := true })
      else
        ({ cp with passed := false }, { s1 with lap := s.lap + 1 })
    else
      ({ cp with passed := true }, s1)
  else
    (cp, s)

/-- The checkpoint-collision `map` of the game loop, with the accumulator
threaded left to right. -/
def processCheckpoints (plane : PlaneState) (allCps : List Checkpoint)
    (totalLaps : ℕ) : List Checkpoint → CPAcc → List Checkpoint × CPAcc
  | [], s => ([], s)
  | cp :: rest, s =>
    let r := stepCheckpoint plane allCps totalLaps s cp
    let r2 := processCheckpoints plane allCps totalLaps rest r.2
    (r.1 :: r2.1, r2.2)

/-- One iteration of the obstacle-collision `map` of the game loop; the
accumulator is `(newScore, damaged)`. -/
def stepObstacle (plane : PlaneState) (acc : ℝ × Bool) (obs : Obstacle) :
    Obstacle × ℝ × Bool :=
  if checkObstacleCollision plane obs then
    if obs.kind = .destructible then
      ({ obs with destroyed := true }, acc.1 + 25, acc.2)
    else
      (obs, acc.1, true)
  else
    (obs, acc.1, acc.2)

/-- The obstacle-collision `map` of the game loop. -/
def processObstacles (plane : PlaneState) :
    List Obstacle → ℝ × Bool → List Obstacle × ℝ × Bool
  | [], acc => ([], acc)
  | obs :: rest, acc =>
    let r := stepObstacle plane acc obs
    let r2 := processObstacles plane rest r.2
    (r.1 :: r2.1, r2.2)

/-- The powerup-collection `map` of the game loop.  The plane and score are
threaded through, `n` indexes the `Math.random()` stream `rand` offered to
`applyPowerupToPlane` (consulted only by a mystery re-roll). -/
def processPowerups (combo : ℝ) (rand : ℕ → ℝ) :
    List Powerup → PlaneState → ℝ → ℕ → List Powerup × PlaneState × ℝ
  | [], plane, score, _ => ([], plane, score)
  | pu :: rest, plane, score, n =>
    if checkPowerupCollision plane pu then
      let plane1 := applyPowerupToPlane plane pu.kind (rand n)
      let r := processPowerups combo rand rest plane1 (score + 50 * combo) (n + 1)
      ({ pu with collected := true } :: r.1, r.2)
    else
      let r := processPowerups combo rand rest plane score (n + 1)
      (pu :: r.1, r.2)

/-- The powerup-respawn `map` of the game loop. -/
def respawnStep (dt : ℝ) (pu : Powerup) : Powerup :=
  if pu.collected then
    if 10 ≤ pu.respawnTimer + dt then
      { pu with collected := false, respawnTimer := 0 }
    else
      { pu with respawnTimer := pu.respawnTimer + dt }
  else pu

/-- The fixed AI cruise speeds of the game loop. -/
def aiCruiseSpeed : Difficulty → ℝ
  | .hard => 85
  | .medium => 70
  | .easy => 55

/-- `Math.atan2(y, x)`, as the argument of the complex number `x + y i`. -/
def atan2 (y x : ℝ) : ℝ := Complex.arg ⟨x, y⟩

/-- The AI-opponent update of the game loop (seek the current target
checkpoint; advance the target index within its radius).  On an empty
checkpoint array the JS indexing yields `undefined` and the opponent is
returned unchanged. -/
def updateOpponent (cps : List Checkpoint) (dt : ℝ) (opp : AIOpponent) :
    AIOpponent :=
  match cps with
  | [] => opp
  | a :: l =>
    let cp := (a :: l).get ⟨opp.currentCheckpoint % (a :: l).length,
      Nat.mod_lt _ (Nat.succ_pos l.length)⟩
    let dir := subVec3 cp.position opp.position
    let dist := Real.sqrt (dir.x * dir.x + dir.y * dir.y + dir.z * dir.z)
    if dist < cp.radius then
      { opp with
        currentCheckpoint := opp.currentCheckpoint + 1,
        progress := opp.progress + 1 }
    else
      let aiSpeed := aiCruiseSpeed opp.difficulty
      let norm : Vec3 := if dist > 0 then ⟨dir.x / dist, dir.y / dist, dir.z / dist⟩
        else ⟨0, 0, 0⟩
      { opp with
        position := ⟨opp.position.x + norm.x * aiSpeed * dt,
          opp.position.y + norm.y * aiSpeed * dt,
          opp.position.z + norm.z * aiSpeed * dt⟩,
        speed := aiSpeed,
        rotation := ⟨atan2 (-norm.y) 1, atan2 norm.x norm.z, 0⟩ }

/-- `generateResult(prev, plane, track, raceTime)` of `App.tsx`. -/
def generateResult (prev : GameStore) (plane : PlaneState) (track : Track)
    (raceTime : ℝ) : RaceResult :=
  let passed := (track.checkpoints.filter (fun cp => cp.passed)).length
  let total := track.checkpoints.length
  let stars := calculateStars raceTime track.starTimes
  let position : ℕ := if plane.health > 0 then 1 else prev.opponents.length + 1
  { position := position,
    time := raceTime,
    bestLap := prev.lapTime,
    coins := ⌊prev.score / 10⌋,
    xp := ⌊prev.score / 5⌋ +
      (if position = 1 then 100 else if position = 2 then 75 else 50),
    stars := stars,
    checkpointsPassed := passed,
    totalCheckpoints := total,
    damagesTaken := plane.damage,
    powerupsCollected := (track.powerups.filter (fun pu => pu.collected)).length,
    tricksPerformed := 0,
    topSpeed := plane.speed,
    averageSpeed := plane.speed * 0.7 }

/-- The combined outcome of one playing tick's physics and collision
resolution (the local mutable variables of the game loop just before the
crash/finish checks). -/
structure ResolveOut where
  plane : PlaneState
  checkpoints : List Checkpoint
  obstacles : List Obstacle
  powerups : List Powerup
  score : ℝ
  combo : ℝ
  comboTimer : ℝ
  lap : ℕ
  finished : Bool

/-- Physics step followed by combo decay, checkpoint, obstacle, damage,
powerup-collection and powerup-respawn resolution, in the source's order. -/
def resolveTick (prev : GameStore) (track : Track) (input : PhysicsInput)
    (dt : ℝ) (rand : ℕ → ℝ) : ResolveOut :=
  let timeFactor : ℝ := if prev.plane.activePowerup = some .timeSlow then 0.5 else 1
  let newPlane := updatePhysics prev.plane input dt prev.weather timeFactor
  let comboTimer0 := prev.comboTimer - dt
  let c0 : CPAcc :=
    if comboTimer0 ≤ 0 then ⟨prev.score, 1, 0, prev.currentLap, false⟩
    else ⟨prev.score, prev.combo, comboTimer0, prev.currentLap, false⟩
  let cpr := processCheckpoints newPlane track.checkpoints prev.totalLaps
    track.checkpoints c0
  let obr := processObstacles newPlane track.obstacles (cpr.2.score, false)
  let plane1 := if obr.2.2 then applyDamage newPlane 20 else newPlane
  let pur := processPowerups cpr.2.combo rand track.powerups plane1 obr.2.1 0
  let pus := pur.1.map (respawnStep dt)
  { plane := pur.2.1, checkpoints := cpr.1, obstacles := obr.1, powerups := pus,
    score := pur.2.2, combo := cpr.2.combo, comboTimer := cpr.2.comboTimer,
    lap := cpr.2.lap, finished := cpr.2.finished }

/-- The `playing` branch of the game loop: resolve the tick, update the
opponents, then check crash and finish, building the next store exactly as
the source's three `return` statements do. -/
def tickPlaying (prev : GameStore) (track : Track) (input : PhysicsInput)
    (dt : ℝ) (rand : ℕ → ℝ) : GameStore :=
  let c := resolveTick prev track input dt rand
  let newTrack := { track with
    checkpoints := c.checkpoints,
    obstacles := c.obstacles, powerups := c.powerups }
  let newOpponents := prev.opponents.map (updateOpponent c.checkpoints dt)
  if c.plane.health ≤ 0 then
    { prev with
      gameState := .crashed, plane := c.plane,
      raceResult := some (generateResult prev c.plane newTrack 0),
      currentTrack := some newTrack }
  else if c.finished then
    { prev with
      gameState := .finished, plane := c.plane,
      raceResult := some (generateResult prev c.plane newTrack (prev.raceTime + dt)),
      raceTime := prev.raceTime + dt, currentTrack := some newTrack,
      score := c.score }
  else
    { prev with
      plane := c.plane, currentTrack := some newTrack,
      opponents := newOpponents, raceTime := prev.raceTime + dt,
      lapTime := prev.lapTime + dt, currentLap := c.lap, score := c.score,
      combo := c.combo, comboTimer := c.comboTimer, gameState := .playing }

/-- One invocation of the game loop's `setStore` update: the countdown
branch, the guard (`playing`, not paused, track present), then the playing
tick. -/
def tick (prev : GameStore) (input : PhysicsInput) (dt : ℝ) (rand : ℕ → ℝ) :
    GameStore :=
  if prev.gameState = .countdown then
    if prev.countdown - dt ≤ 0 then
      { prev with gameState := .playing, countdown := 0 }
    else
      { prev with countdown := prev.countdown - dt }
  else if prev.gameState ≠ .playing ∨ prev.showPause = true then prev
  else
    match prev.currentTrack with
    | none => prev
    | some track => tickPlaying prev track input dt rand

end

/-! ### XP leveling (`addXP` of `store.ts`), over `ℚ` -/

/-- The slice of the player profile consulted by `addXP`. -/
structure PlayerProfile where
  level : ℕ
  xp : ℚ
  xpToNext : ℚ

/-- `Math.floor(100 * Math.pow(1.15, level - 1))`, with `1.15 = 23/20`. -/
def xpToNextFor (level : ℕ) : ℚ :=
  ((⌊(100 : ℚ) * (23 / 20 : ℚ) ^ (level - 1)⌋ : ℤ) : ℚ)

/-- The `while (xp >= xpToNext)` loop of `addXP`.  The extra conjunct
`1 ≤ xpToNext` is the termination side condition; it is an invariant of
every call made by `addXP` under the spec's preconditions, and it holds of
every recursive call unconditionally (`xpToNextFor _ ≥ 100`). -/
def addXPLoop (xp : ℚ) (level : ℕ) (xpToNext : ℚ) : ℚ × ℕ × ℚ :=
  if h : xpToNext ≤ xp ∧ 1 ≤ xpToNext then
    addXPLoop (xp - xpToNext) (level + 1) (xpToNextFor (level + 1))
  else
    (xp, level, xpToNext)
termination_by ⌊xp⌋.toNat
decreasing_by
  have h1 : xpToNext ≤ xp := h.1
  have h2 : (1 : ℚ) ≤ xpToNext := h.2
  have hfl : ⌊xp - xpToNext⌋ < ⌊xp⌋ := by
    have hle : xp - xpToNext ≤ xp - 1 := by linarith
    have := Int.floor_le_floor hle
    rw [show xp - 1 = xp - (1 : ℤ) by push_cast; ring, Int.floor_sub_int] at this
    omega
  have hpos : 0 < ⌊xp⌋ := by
    have hx1 : (1 : ℚ) ≤ xp := le_trans h2 h1
    have := Int.le_floor.mpr (by exact_mod_cast hx1 : ((1 : ℤ) : ℚ) ≤ xp)
    omega
  omega

/-- `addXP(profile, amount)` of `store.ts`.  The source's `leveledUp` flag
is set exactly when at least one loop iteration ran, i.e. exactly when the
level increased. -/
def addXP (profile : PlayerProfile) (amount : ℚ) : PlayerProfile × Bool :=
  let r := addXPLoop (profile.xp + amount) profile.level profile.xpToNext
  ({ level := r.2.1, xp := r.1, xpToNext := r.2.2 }, decide (profile.level < r.2.1))

/-! ### Concrete fixtures used by witnesses and counterexamples -/

noncomputable section

/-- The all-zero control input (no keys held, throttle released). -/
def zeroInput : PhysicsInput :=
  { pitch := 0, yaw := 0, roll := 0, throttle := 0, boost := false, brake := false }

/-- Zero input with the boost flag held. -/
def boostInput : PhysicsInput := { zeroInput with boost := true }

/-- The initial calm weather of `createStore`. -/
def clearWeather : WeatherState :=
  { current := .clear, intensity := 0, windDirection := vec3 1 0 0,
    windSpeed := 0, visibility := 1000, precipitation := 0, lightningTimer := 0 }

/-- A fresh plane with an active shield. -/
def shieldPlane : PlaneState :=
  { createPlaneState with activePowerup := some .shield, powerupTimer := 10 }

/-- A fresh plane flying 0.5 above the ground-collision height. -/
def lowPlane : PlaneState :=
  { createPlaneState with position := vec3 0 2.5 0, health := 5 }

/-- A fresh plane with an empty boost tank. -/
def emptyBoostPlane : PlaneState := { createPlaneState with boost := 0 }

/-- A menu-state store with no tracks, mirroring the modelled fields of
`createStore`. -/
def emptyStore : GameStore :=
  { screen := "mainMenu", gameState := .menu, gameMode := .timeTrial,
    currentTrack := none, currentMission := none, plane := createPlaneState,
    opponents := [], raceTime := 0, lapTime := 0, currentLap := 1,
    totalLaps := 3, countdown := 3, raceResult := none, score := 0,
    combo := 1, comboTimer := 0, weather := clearWeather, showPause := false,
    tracks := [], missions := [] }

end

/-! ### C5: applyDamage and the shield -/

/-- C5: `applyDamage` on a plane with an active shield returns the plane
with the shield cleared and health and damage counter unchanged; without a
shield it decreases health (floored at 0) and increments the damage
counter; hence a shield absorbs exactly one subsequent damage event. -/
theorem applyDamage_shield_semantics (p : PlaneState) (a b : ℝ)
    (h : p.activePowerup = some .shield) :
    applyDamage p a = { p with activePowerup := none, powerupTimer := 0 } ∧
    (applyDamage (applyDamage p a) b).health = max 0 (p.health - b) ∧
    (applyDamage (applyDamage p a) b).damage = p.damage + 1 ∧
    ∀ q : PlaneState, q.activePowerup ≠ some .shield →
      (applyDamage q a).health = max 0 (q.health - a) ∧
      (applyDamage q a).damage = q.damage + 1 ∧
      (applyDamage q a).activePowerup = q.activePowerup := by
  have h1 : applyDamage p a = { p with activePowerup := none, powerupTimer := 0 } := by
    rw [applyDamage, if_pos h]
  refine ⟨h1, ?_, ?_, ?_⟩
  · rw [h1, applyDamage, if_neg (by simp)]
  · rw [h1, applyDamage, if_neg (by simp)]
  · intro q hq
    refine ⟨?_, ?_, ?_⟩ <;> rw [applyDamage, if_neg hq]

/-- Witness for C5 at a concrete shielded plane, damage amounts 20 then 30. -/
theorem applyDamage_shield_semantics_witness :
    shieldPlane.activePowerup = some PowerupType.shield ∧
    (applyDamage shieldPlane 20).health = 100 ∧
    (applyDamage shieldPlane 20).activePowerup = none ∧
    (applyDamage (applyDamage shieldPlane 20) 30).health = 70 := by
  have h := applyDamage_shield_semantics shieldPlane 20 30 rfl
  refine ⟨rfl, ?_, ?_, ?_⟩
  · rw [h.1]; norm_num [shieldPlane, createPlaneState]
  · rw [h.1]
  · rw [h.2.1]; norm_num [shieldPlane, createPlaneState]

/-! ### C10: holding boost with an empty tank -/

/-- C10: with boost fuel exactly 0 and the boost flag held, `updatePhysics`
leaves the fuel unchanged at 0, and the thrust/boost stage applies no boost
multiplier (thrust passes through unchanged); recharge happens only in the
flag-released branch. -/
theorem updatePhysics_empty_boost (p : PlaneState) (i : PhysicsInput)
    (dt tf : ℝ) (w : WeatherState)
    (hb : p.boost = 0) (hi : i.boost = true) :
    (updatePhysics p i dt w tf).boost = 0 ∧
    ∀ thrust maxBoost edt : ℝ,
      thrustAndBoost true thrust 0 maxBoost edt = (thrust, 0) := by
  have hstep : ∀ thrust maxBoost edt : ℝ,
      thrustAndBoost true thrust 0 maxBoost edt = (thrust, 0) := by
    intro thrust maxBoost edt
    rw [thrustAndBoost, if_neg (by simp), if_neg (by simp)]
  constructor
  · simp only [updatePhysics, hb, hi, hstep]
  · exact hstep

/-- Witness for C10 at a concrete empty-tank plane with the boost key held. -/
theorem updatePhysics_empty_boost_witness :
    emptyBoostPlane.boost = 0 ∧ boostInput.boost = true ∧
    (updatePhysics emptyBoostPlane boostInput 1 clearWeather 1).boost = 0 ∧
    thrustAndBoost true 36 0 100 1 = (36, 0) := by
  have h := updatePhysics_empty_boost emptyBoostPlane boostInput 1 1 clearWeather rfl rfl
  exact ⟨rfl, rfl, h.1, h.2 36 100 1⟩

/-! ### C9: startRace with an unknown track id -/

/-- C9: `startRace` with a track id matching no known track returns the
prior store completely unchanged. -/
theorem startRace_unknown_track (store : GameStore) (trackId : String)
    (mode : GameMode) (missionId : Option ℕ) (rng : ℕ → ℝ)
    (h : store.tracks.find? (fun t => t.id == trackId) = none) :
    startRace store trackId mode missionId rng = store := by
  unfold startRace
  rw [h]

/-- Witness for C9: an id that matches no track of a concrete store. -/
theorem startRace_unknown_track_witness :
    emptyStore.tracks.find? (fun t => t.id == "no_such_track") = none ∧
    startRace emptyStore "no_such_track" .timeTrial none (fun _ => 0) = emptyStore :=
  ⟨rfl, startRace_unknown_track emptyStore "no_such_track" .timeTrial none
    (fun _ => 0) rfl⟩

/-! ### C3: star rating thresholds -/

/-- C3 (amended): `calculateStars` awards 3 stars when the time is within
`starTimes[2]` (the tightest threshold), 2 within `starTimes[1]`, 1 within
`starTimes[0]` (the loosest), else 0 — the per-track `starTimes` arrays are
ordered loosest first, tightest last (`[parTime, 0.8·parTime, 0.6·parTime]`
for circular tracks, `[90, 72, 54]` for figure-eight tracks). -/
theorem calculateStars_spec (time s0 s1 s2 : ℝ) (h21 : s2 ≤ s1) (h10 : s1 ≤ s0) :
    (time ≤ s2 → calculateStars time (s0, s1, s2) = 3) ∧
    (s2 < time → time ≤ s1 → calculateStars time (s0, s1, s2) = 2) ∧
    (s1 < time → time ≤ s0 → calculateStars time (s0, s1, s2) = 1) ∧
    (s0 < time → calculateStars time (s0, s1, s2) = 0) ∧
    (∀ par : ℝ, 0 < par →
      (circularStarTimes par).2.2 ≤ (circularStarTimes par).2.1 ∧
      (circularStarTimes par).2.1 ≤ (circularStarTimes par).1) ∧
    figure8StarTimes.2.2 ≤ figure8StarTimes.2.1 ∧
    figure8StarTimes.2.1 ≤ figure8StarTimes.1 := by
  refine ⟨?_, ?_, ?_, ?_, ?_, ?_, ?_⟩
  · intro hc
    unfold calculateStars
    split_ifs <;> first | rfl | (exfalso; linarith)
  · intro hc1 hc2
    unfold calculateStars
    split_ifs <;> first | rfl | (exfalso; linarith)
  · intro hc1 hc2
    unfold calculateStars
    split_ifs <;> first | rfl | (exfalso; linarith)
  · intro hc
    unfold calculateStars
    split_ifs <;> first | rfl | (exfalso; linarith)
  · intro par hpar
    unfold circularStarTimes
    constructor <;> dsimp only <;> nlinarith
  · norm_num [figure8StarTimes]
  · norm_num [figure8StarTimes]

/-- Counterexample for C3 as stated: the `beginner_loop` track has
`parTime = 60`, so its `starTimes` array is `(60, 48, 36)` — the first
entry is the loosest threshold, not the tightest.  A 60-second race is
within `starTimes[0]`, so under the claim's tightest-first reading it
would earn 3 stars, but `calculateStars` returns 1. -/
theorem calculateStars_not_tightest_first :
    circularStarTimes 60 = (60, 48, 36) ∧
    (60 : ℝ) ≤ (circularStarTimes 60).1 ∧
    calculateStars 60 (circularStarTimes 60) = 1 ∧
    calculateStars 60 (circularStarTimes 60) ≠ 3 := by
  refine ⟨by norm_num [circularStarTimes], by norm_num [circularStarTimes], ?_, ?_⟩
  · norm_num [calculateStars, circularStarTimes]
  · norm_num [calculateStars, circularStarTimes]

/-- Witness for C3's theorem: a 40-second race on thresholds `(60, 48, 36)`
earns exactly 2 stars. -/
theorem calculateStars_spec_witness :
    ((36 : ℝ) ≤ 48 ∧ (48 : ℝ) ≤ 60) ∧ calculateStars 40 (60, 48, 36) = 2 :=
  ⟨by norm_num,
    (calculateStars_spec 40 60 48 36 (by norm_num) (by norm_num)).2.1
      (by norm_num) (by norm_num)⟩

/-! ### C4: XP leveling terminates within bounds -/

/-- Every threshold produced by the leveling formula is at least 100. -/
theorem xpToNextFor_ge (level : ℕ) : (100 : ℚ) ≤ xpToNextFor level := by
  unfold xpToNextFor
  have h1 : (1 : ℚ) ≤ (23 / 20 : ℚ) ^ (level - 1) := one_le_pow₀ (by norm_num)
  have h2 : ((100 : ℤ) : ℚ) ≤ (100 : ℚ) * (23 / 20 : ℚ) ^ (level - 1) := by
    push_cast; linarith
  exact_mod_cast Int.le_floor.mpr h2

/-- Invariant of the leveling loop: from a nonnegative XP balance and a
threshold of at least 1, the loop ends with `0 ≤ xp < xpToNext`. -/
theorem addXPLoop_inv (xp : ℚ) (level : ℕ) (xpToNext : ℚ) :
    0 ≤ xp → 1 ≤ xpToNext →
    0 ≤ (addXPLoop xp level xpToNext).1 ∧
    (addXPLoop xp level xpToNext).1 < (addXPLoop xp level xpToNext).2.2 := by
  induction xp, level, xpToNext using addXPLoop.induct with
  | case1 xp level xpToNext h ih =>
    intro hx ht
    rw [addXPLoop, dif_pos h]
    exact ih (by linarith [h.1, h.2]) (by linarith [xpToNextFor_ge (level + 1)])
  | case2 xp level xpToNext h =>
    intro hx ht
    rw [addXPLoop, dif_neg h]
    refine ⟨hx, ?_⟩
    have hnle : ¬ xpToNext ≤ xp := fun hle => h ⟨hle, ht⟩
    exact lt_of_not_le hnle

/-- C4: for every profile with `level ≥ 1`, `xpToNext ≥ 1` and a
nonnegative XP balance, and every nonnegative award, `addXP` (which is
total, i.e. its loop terminates) returns a profile with
`0 ≤ xp < xpToNext`. -/
theorem addXP_bounds (profile : PlayerProfile) (amount : ℚ)
    (hlevel : 1 ≤ profile.level) (ht : 1 ≤ profile.xpToNext)
    (hxp : 0 ≤ profile.xp) (ha : 0 ≤ amount) :
    0 ≤ (addXP profile amount).1.xp ∧
    (addXP profile amount).1.xp < (addXP profile amount).1.xpToNext := by
  have h := addXPLoop_inv (profile.xp + amount) profile.level profile.xpToNext
    (by linarith) ht
  simpa [addXP] using h

/-- Witness for C4: Scenario E's award of 250 XP to a level-1 profile with
xp 80 and threshold 100. -/
theorem addXP_bounds_witness :
    (1 ≤ (1 : ℕ) ∧ 1 ≤ (100 : ℚ) ∧ 0 ≤ (80 : ℚ) ∧ 0 ≤ (250 : ℚ)) ∧
    (0 ≤ (addXP ⟨1, 80, 100⟩ 250).1.xp ∧
     (addXP ⟨1, 80, 100⟩ 250).1.xp < (addXP ⟨1, 80, 100⟩ 250).1.xpToNext) :=
  ⟨by norm_num,
    addXP_bounds ⟨1, 80, 100⟩ 250 (by norm_num) (by norm_num) (by norm_num)
      (by norm_num)⟩

/-! ### C7: mystery re-roll and repair -/

/-- C7 (amended): the mystery powerup re-rolls uniformly over the six
kinds `[nitro, shield, magnet, timeSlow, ghost, doublePoints]` — each index
is selected by an equal-width `1/6` slice of the random sample — and
applies the drawn kind with its fixed duration; `repair` restores health to
`maxHealth` and clears the damage counter without touching the
active-effect slot. -/
theorem applyPowerup_mystery_repair (plane : PlaneState) (rand : ℝ)
    (h0 : 0 ≤ rand) (h1 : rand < 1) :
    (∀ k : ℕ, k < 6 → (k : ℝ) / 6 ≤ rand → rand < ((k : ℝ) + 1) / 6 →
      applyPowerupToPlane plane .mystery rand =
        { plane with
          activePowerup := some (mysteryTypes.getD k .nitro),
          powerupTimer := powerupDuration (mysteryTypes.getD k .nitro) }) ∧
    (∃ ty ∈ mysteryTypes,
      (applyPowerupToPlane plane .mystery rand).activePowerup = some ty) ∧
    applyPowerupToPlane plane .repair rand =
      { plane with health := plane.maxHealth, damage := 0 } := by
  have hlen : (mysteryTypes.length : ℝ) = 6 := by norm_num [mysteryTypes]
  have hmain : ∀ k : ℕ, k < 6 → (k : ℝ) / 6 ≤ rand → rand < ((k : ℝ) + 1) / 6 →
      applyPowerupToPlane plane .mystery rand =
        { plane with
          activePowerup := some (mysteryTypes.getD k .nitro),
          powerupTimer := powerupDuration (mysteryTypes.getD k .nitro) } := by
    intro k hk hk1 hk2
    have hfl : ⌊rand * (mysteryTypes.length : ℝ)⌋ = (k : ℤ) := by
      rw [hlen, Int.floor_eq_iff]
      constructor
      · push_cast; linarith
      · push_cast; linarith
    unfold applyPowerupToPlane
    rw [if_neg (by decide : ¬ (PowerupType.mystery = PowerupType.repair))]
    rw [if_pos (rfl : PowerupType.mystery = PowerupType.mystery), hfl,
      Int.toNat_natCast]
    interval_cases k <;> norm_num [mysteryTypes, powerupDuration]
  refine ⟨hmain, ?_, ?_⟩
  · have hex : ∃ k : ℕ, k < 6 ∧ (k : ℝ) / 6 ≤ rand ∧ rand < ((k : ℝ) + 1) / 6 := by
      refine ⟨(⌊rand * 6⌋).toNat, ?_, ?_, ?_⟩
      · have : ⌊rand * 6⌋ < 6 := by
          have : rand * 6 < 6 := by linarith
          exact Int.floor_lt.mpr (by push_cast; linarith)
        omega
      · have h6 : (0 : ℤ) ≤ ⌊rand * 6⌋ := Int.floor_nonneg.mpr (by linarith)
        have hcast : (((⌊rand * 6⌋).toNat : ℕ) : ℝ) = ((⌊rand * 6⌋ : ℤ) : ℝ) := by
          exact_mod_cast congrArg (fun z : ℤ => (z : ℝ)) (Int.toNat_of_nonneg h6)
        rw [hcast, div_le_iff (by norm_num : (0:ℝ) < 6)]
        exact Int.floor_le _
      · have h6 : (0 : ℤ) ≤ ⌊rand * 6⌋ := Int.floor_nonneg.mpr (by linarith)
        have hcast : (((⌊rand * 6⌋).toNat : ℕ) : ℝ) = ((⌊rand * 6⌋ : ℤ) : ℝ) := by
          exact_mod_cast congrArg (fun z : ℤ => (z : ℝ)) (Int.toNat_of_nonneg h6)
        rw [hcast, lt_div_iff (by norm_num : (0:ℝ) < 6)]
        linarith [Int.lt_floor_add_one (rand * 6)]
    obtain ⟨k, hk, hk1, hk2⟩ := hex
    refine ⟨mysteryTypes.getD k .nitro, ?_, ?_⟩
    · interval_cases k <;> decide
    · rw [hmain k hk hk1 hk2]
  · unfold applyPowerupToPlane
    rw [if_pos rfl]

/-- Counterexample for C7 as stated: the re-roll pool of
`applyPowerupToPlane` holds only six kinds — `lightning` and `tornado` are
not in it (so no random sample can draw them), contradicting the claimed
eight-kind pool.  The sample `1/2` concretely draws `timeSlow`. -/
theorem mystery_pool_has_six_kinds :
    PowerupType.lightning ∉ mysteryTypes ∧
    PowerupType.tornado ∉ mysteryTypes ∧
    mysteryTypes.length = 6 ∧
    (applyPowerupToPlane createPlaneState .mystery (1 / 2)).activePowerup =
      some PowerupType.timeSlow := by
  refine ⟨by decide, by decide, by decide, ?_⟩
  have h3 : ⌊(1 / 2 : ℝ) * (mysteryTypes.length : ℝ)⌋ = 3 := by
    have h : (1 / 2 : ℝ) * (mysteryTypes.length : ℝ) = ((3 : ℤ) : ℝ) := by
      norm_num [mysteryTypes]
    rw [h, Int.floor_intCast]
  unfold applyPowerupToPlane
  rw [if_neg (by decide : ¬ (PowerupType.mystery = PowerupType.repair))]
  rw [if_pos (rfl : PowerupType.mystery = PowerupType.mystery), h3]
  simp only [mysteryTypes]
  decide

/-- Witness for C7's theorem: the sample `1/3` lies in slice 2 and draws
`magnet` with duration 8. -/
theorem applyPowerup_mystery_repair_witness :
    ((0 : ℝ) ≤ 1 / 3 ∧ (1 / 3 : ℝ) < 1) ∧
    applyPowerupToPlane createPlaneState .mystery (1 / 3) =
      { createPlaneState with
        activePowerup := some PowerupType.magnet, powerupTimer := 8 } := by
  refine ⟨by norm_num, ?_⟩
  have h := (applyPowerup_mystery_repair createPlaneState (1 / 3) (by norm_num)
    (by norm_num)).1 2 (by norm_num) (by norm_num) (by norm_num)
  rw [h]
  norm_num [mysteryTypes, powerupDuration]

/-! ### C1: per-tick state bounds -/

/-- The speed clamp always lands in `[MIN_SPEED, MAX_SPEED]`. -/
theorem clampSpeed_bounds (s : ℝ) : 20 ≤ clampSpeed s ∧ clampSpeed s ≤ 500 := by
  unfold clampSpeed MIN_SPEED MAX_SPEED
  constructor
  · exact le_max_left _ _
  · exact max_le (by norm_num) (min_le_left _ _)

/-- The final speed of `updatePhysics` (nitro override over the clamped
speed) stays within `[20, 500]`. -/
theorem nitroSpeed_bounds (pw : Option PowerupType) (s : ℝ) :
    20 ≤ (if pw = some PowerupType.nitro then min MAX_SPEED (clampSpeed s * 1.02)
      else clampSpeed s) ∧
    (if pw = some PowerupType.nitro then min MAX_SPEED (clampSpeed s * 1.02)
      else clampSpeed s) ≤ 500 := by
  have hb := clampSpeed_bounds s
  split_ifs with h
  · constructor
    · refine le_min (by norm_num [MAX_SPEED]) ?_
      nlinarith [hb.1]
    · exact le_trans (min_le_left _ _) (by norm_num [MAX_SPEED])
  · exact hb

/-- The boost-fuel update keeps the fuel within `[0, maxBoost]` whenever
the effective time step is nonnegative. -/
theorem thrustAndBoost_fuel_bounds (ib : Bool) (t b mb e : ℝ)
    (hb0 : 0 ≤ b) (hb1 : b ≤ mb) (he : 0 ≤ e) :
    0 ≤ (thrustAndBoost ib t b mb e).2 ∧ (thrustAndBoost ib t b mb e).2 ≤ mb := by
  have hmb : 0 ≤ mb := le_trans hb0 hb1
  have hdr : 0 ≤ BOOST_DRAIN_RATE * e :=
    mul_nonneg (by norm_num [BOOST_DRAIN_RATE]) he
  have hcr : 0 ≤ BOOST_CHARGE_RATE * e :=
    mul_nonneg (by norm_num [BOOST_CHARGE_RATE]) he
  unfold thrustAndBoost
  split_ifs with h1 h2 <;> dsimp only <;> constructor
  · exact le_max_left _ _
  · exact max_le hmb (by linarith)
  · exact hb0
  · exact hb1
  · exact le_min hmb (by linarith)
  · exact min_le_left _ _

/-- Health never increases across a physics step and the damage-or-not
branch keeps it at or below any prior upper bound. -/
theorem groundDamage_le (cond : Prop) [Decidable cond] (h mh : ℝ)
    (hle : h ≤ mh) : (if cond then h - 10 else h) ≤ mh := by
  split_ifs <;> linarith

/-- C1 (amended): for a nonnegative `dt` and `timeFactor` and a plane
within bounds (`maxHealth = maxBoost = 100`), one physics step keeps
`minSpeed ≤ speed ≤ maxSpeed`, `0 ≤ boost ≤ maxBoost` and
`health ≤ maxHealth`.  The lower health bound of the original claim is
dropped: ground-impact damage is applied without a floor at 0 (see the
counterexample), and with a negative `dt` the boost cap can also be
exceeded. -/
theorem updatePhysics_bounds (plane : PlaneState) (input : PhysicsInput)
    (dt tf : ℝ) (w : WeatherState)
    (hdt : 0 ≤ dt) (htf : 0 ≤ tf)
    (hmh : plane.maxHealth = 100) (hmb : plane.maxBoost = 100)
    (hh0 : 0 ≤ plane.health) (hh1 : plane.health ≤ 100)
    (hs0 : 20 ≤ plane.speed) (hs1 : plane.speed ≤ 500)
    (hb0 : 0 ≤ plane.boost) (hb1 : plane.boost ≤ 100) :
    20 ≤ (updatePhysics plane input dt w tf).speed ∧
    (updatePhysics plane input dt w tf).speed ≤ 500 ∧
    0 ≤ (updatePhysics plane input dt w tf).boost ∧
    (updatePhysics plane input dt w tf).boost ≤ 100 ∧
    (updatePhysics plane input dt w tf).health ≤
      (updatePhysics plane input dt w tf).maxHealth := by
  have hedt : 0 ≤ dt * tf := mul_nonneg hdt htf
  have hbmb : plane.boost ≤ plane.maxBoost := by rw [hmb]; exact hb1
  refine ⟨?_, ?_, ?_, ?_, ?_⟩ <;> simp only [updatePhysics]
  · exact (nitroSpeed_bounds _ _).1
  · exact (nitroSpeed_bounds _ _).2
  · exact (thrustAndBoost_fuel_bounds _ _ _ _ _ hb0 hbmb hedt).1
  · calc (thrustAndBoost input.boost (max 0 (min 1 input.throttle) * ACCELERATION)
        plane.boost plane.maxBoost (dt * tf)).2 ≤ plane.maxBoost :=
        (thrustAndBoost_fuel_bounds _ _ _ _ _ hb0 hbmb hedt).2
      _ = 100 := hmb
  · exact groundDamage_le _ _ _ (by rw [hmh]; exact hh1)

/-- Witness for C1's theorem at the fresh plane, zero input, `dt = 1`. -/
theorem updatePhysics_bounds_witness :
    ((0 : ℝ) ≤ 1 ∧ createPlaneState.maxHealth = 100 ∧
      createPlaneState.maxBoost = 100 ∧ 0 ≤ createPlaneState.health ∧
      createPlaneState.health ≤ 100 ∧ 20 ≤ createPlaneState.speed ∧
      createPlaneState.speed ≤ 500 ∧ 0 ≤ createPlaneState.boost ∧
      createPlaneState.boost ≤ 100) ∧
    (20 ≤ (updatePhysics createPlaneState zeroInput 1 clearWeather 1).speed ∧
     (updatePhysics createPlaneState zeroInput 1 clearWeather 1).speed ≤ 500 ∧
     0 ≤ (updatePhysics createPlaneState zeroInput 1 clearWeather 1).boost ∧
     (updatePhysics createPlaneState zeroInput 1 clearWeather 1).boost ≤ 100 ∧
     (updatePhysics createPlaneState zeroInput 1 clearWeather 1).health ≤
       (updatePhysics createPlaneState zeroInput 1 clearWeather 1).maxHealth) :=
  ⟨by norm_num [createPlaneState],
    updatePhysics_bounds createPlaneState zeroInput 1 1 clearWeather
      (by norm_num) (by norm_num) (by norm_num [createPlaneState])
      (by norm_num [createPlaneState]) (by norm_num [createPlaneState])
      (by norm_num [createPlaneState]) (by norm_num [createPlaneState])
      (by norm_num [createPlaneState]) (by norm_num [createPlaneState])
      (by norm_num [createPlaneState])⟩

set_option maxHeartbeats 3000000 in
/-- Counterexample for C1 as stated.  `lowPlane` satisfies every claimed
bound (health 5, speed 80, boost 100), yet one physics step with `dt = 1`
slams it into the ground at speed above 50 and leaves `health = -5 < 0`:
the ground-impact damage has no floor at 0.  Moreover with a negative `dt`
(the claim quantifies over arbitrary `dt`) the boost drain runs backwards
past the cap: the fresh plane's fuel becomes `133 > maxBoost`. -/
theorem updatePhysics_health_unclamped :
    (0 ≤ lowPlane.health ∧ lowPlane.health ≤ lowPlane.maxHealth ∧
     20 ≤ lowPlane.speed ∧ lowPlane.speed ≤ 500 ∧
     0 ≤ lowPlane.boost ∧ lowPlane.boost ≤ lowPlane.maxBoost) ∧
    (updatePhysics lowPlane zeroInput 1 clearWeather 1).health = -5 ∧
    (updatePhysics createPlaneState boostInput (-1) clearWeather 1).boost = 133 := by
  have h1 : min (Real.pi / 3) 0 = 0 := min_eq_right (by positivity)
  have h2 : max (-(Real.pi / 3)) 0 = 0 := max_eq_right (by
    simp only [neg_nonpos]
    positivity)
  refine ⟨by norm_num [lowPlane, createPlaneState], ?_, ?_⟩
  · norm_num +decide [updatePhysics, thrustAndBoost, clampSpeed, lowPlane,
      createPlaneState, zeroInput, clearWeather, vec3, addVec3, scaleVec3,
      GRAVITY, AIR_DENSITY, WING_AREA, DRAG_COEFFICIENT, LIFT_COEFFICIENT,
      MAX_SPEED, MIN_SPEED, STALL_SPEED, ACCELERATION, TURN_RATE, PITCH_RATE,
      ROLL_RATE, BOOST_MULTIPLIER, BOOST_DRAIN_RATE, BOOST_CHARGE_RATE,
      decide_eq_true_eq, h1, h2, min_eq_right, min_eq_left, max_eq_right,
      max_eq_left, Real.sin_zero, Real.cos_zero]
  · norm_num +decide [updatePhysics, thrustAndBoost, createPlaneState, boostInput,
      zeroInput, clearWeather, BOOST_MULTIPLIER, BOOST_DRAIN_RATE,
      BOOST_CHARGE_RATE, ACCELERATION, decide_eq_true_eq]

/-! ### A concrete evaluated physics step, shared by the tick scenarios -/

noncomputable section

/-- A fresh plane (position `(0, 50, 0)`, speed 80, rotation 0) with a
chosen health value. -/
def cruisePlane (h0 : ℝ) : PlaneState := { createPlaneState with health := h0 }

end

noncomputable section

/-- The outcome of one physics step from `cruisePlane` (proved below):
position `(0, 49.04252, 79.412)`, speed `79.412`, all else as before. -/
def cruisedPlane (h0 : ℝ) : PlaneState :=
  { position := vec3 0 49.04252 79.412, velocity := vec3 0 (-0.95748) 79.412,
    rotation := vec3 0 0 0, speed := 79.412, throttle := 0, health := h0,
    maxHealth := 100, boost := 100, maxBoost := 100, altitude := 49.04252,
    gForce := 1, stalling := false, damage := 0, activePowerup := none,
    powerupTimer := 0, trailPoints := [vec3 0 49.04252 79.412] }

end

set_option maxHeartbeats 3000000 in
/-- Evaluation of one physics step from `cruisePlane` under zero input,
clear weather and `dt = 1`: the plane glides to
`(0, 49.04252, 79.412)` at speed `79.412` with no ground contact and no
other state change. -/
theorem updatePhysics_cruise (h0 : ℝ) :
    updatePhysics (cruisePlane h0) zeroInput 1 clearWeather 1 =
      cruisedPlane h0 := by
  have h1 : min (Real.pi / 3) 0 = 0 := min_eq_right (by positivity)
  have h2 : max (-(Real.pi / 3)) 0 = 0 := max_eq_right (by
    simp only [neg_nonpos]
    positivity)
  norm_num +decide [updatePhysics, thrustAndBoost, clampSpeed, cruisePlane,
    cruisedPlane, createPlaneState, zeroInput, clearWeather, vec3, addVec3, scaleVec3,
    GRAVITY, AIR_DENSITY, WING_AREA, DRAG_COEFFICIENT, LIFT_COEFFICIENT,
    MAX_SPEED, MIN_SPEED, STALL_SPEED, ACCELERATION, TURN_RATE, PITCH_RATE,
    ROLL_RATE, BOOST_MULTIPLIER, BOOST_DRAIN_RATE, BOOST_CHARGE_RATE,
    decide_eq_true_eq, h1, h2, min_eq_right, min_eq_left, max_eq_right,
    max_eq_left, Real.sin_zero, Real.cos_zero, PlaneState.mk.injEq,
    Vec3.mk.injEq]

/-! ### Structural lemmas about the tick pipeline -/

/-- A checkpoint that is already passed never collides, so a run of passed
checkpoints passes through the resolution `map` unchanged. -/
theorem processCheckpoints_all_passed (plane : PlaneState)
    (allCps : List Checkpoint) (totalLaps : ℕ) (l : List Checkpoint)
    (s : CPAcc) (h : ∀ c ∈ l, c.passed = true) :
    processCheckpoints plane allCps totalLaps l s = (l, s) := by
  induction l generalizing s with
  | nil => rfl
  | cons cp rest ih =>
    have hcp : cp.passed = true := h cp (by simp)
    have hrest : ∀ c ∈ rest, c.passed = true := fun c hc => h c (by simp [hc])
    rw [processCheckpoints, stepCheckpoint,
      if_neg (by simp [checkCheckpointCollision, hcp])]
    dsimp only
    rw [ih _ hrest]

/-- The checkpoint resolution distributes over list append, threading the
accumulator. -/
theorem processCheckpoints_append (plane : PlaneState)
    (allCps : List Checkpoint) (totalLaps : ℕ) (l₁ l₂ : List Checkpoint)
    (s : CPAcc) :
    processCheckpoints plane allCps totalLaps (l₁ ++ l₂) s =
      ((processCheckpoints plane allCps totalLaps l₁ s).1 ++
        (processCheckpoints plane allCps totalLaps l₂
          (processCheckpoints plane allCps totalLaps l₁ s).2).1,
       (processCheckpoints plane allCps totalLaps l₂
          (processCheckpoints plane allCps totalLaps l₁ s).2).2) := by
  induction l₁ generalizing s with
  | nil => rfl
  | cons cp rest ih =>
    simp only [List.cons_append, processCheckpoints, List.append_eq]
    rw [ih]

/-- The guarded form of one tick: in the `playing` state, unpaused, with a
track loaded, `tick` is `tickPlaying`. -/
theorem tick_playing_eq (prev : GameStore) (input : PhysicsInput) (dt : ℝ)
    (rand : ℕ → ℝ) (track : Track)
    (hstate : prev.gameState = .playing) (hpause : prev.showPause = false)
    (htrack : prev.currentTrack = some track) :
    tick prev input dt rand = tickPlaying prev track input dt rand := by
  unfold tick
  rw [if_neg (by rw [hstate]; decide), if_neg (by rw [hstate, hpause]; decide),
    htrack]

/-- The plane stored by a playing tick is always the fully resolved plane,
whichever of the crash / finish / continue branches is taken. -/
theorem tickPlaying_plane (prev : GameStore) (track : Track)
    (input : PhysicsInput) (dt : ℝ) (rand : ℕ → ℝ) :
    (tickPlaying prev track input dt rand).plane =
      (resolveTick prev track input dt rand).plane := by
  unfold tickPlaying
  dsimp only
  split_ifs <;> rfl

/-! ### C8: the combo multiplier invariant -/

/-- One checkpoint step keeps the combo in `[1, 10]`: it either leaves it
alone or replaces it by `min (combo + 1) 10`. -/
theorem stepCheckpoint_combo (plane : PlaneState) (allCps : List Checkpoint)
    (totalLaps : ℕ) (s : CPAcc) (cp : Checkpoint)
    (h1 : 1 ≤ s.combo) (h10 : s.combo ≤ 10) :
    1 ≤ (stepCheckpoint plane allCps totalLaps s cp).2.combo ∧
    (stepCheckpoint plane allCps totalLaps s cp).2.combo ≤ 10 := by
  unfold stepCheckpoint
  split_ifs <;> dsimp only
  · exact ⟨le_min (by linarith) (by norm_num), min_le_right _ _⟩
  · exact ⟨le_min (by linarith) (by norm_num), min_le_right _ _⟩
  · exact ⟨le_min (by linarith) (by norm_num), min_le_right _ _⟩
  · exact ⟨h1, h10⟩

/-- The whole checkpoint pass keeps the combo in `[1, 10]`. -/
theorem processCheckpoints_combo (plane : PlaneState)
    (allCps : List Checkpoint) (totalLaps : ℕ) (l : List Checkpoint)
    (s : CPAcc) (h1 : 1 ≤ s.combo) (h10 : s.combo ≤ 10) :
    1 ≤ (processCheckpoints plane allCps totalLaps l s).2.combo ∧
    (processCheckpoints plane allCps totalLaps l s).2.combo ≤ 10 := by
  induction l generalizing s with
  | nil => exact ⟨h1, h10⟩
  | cons cp rest ih =>
    rw [processCheckpoints]
    dsimp only
    have hs := stepCheckpoint_combo plane allCps totalLaps s cp h1 h10
    exact ih _ hs.1 hs.2

/-- The resolved combo of a playing tick stays in `[1, 10]`. -/
theorem resolveTick_combo (prev : GameStore) (track : Track)
    (input : PhysicsInput) (dt : ℝ) (rand : ℕ → ℝ)
    (h1 : 1 ≤ prev.combo) (h10 : prev.combo ≤ 10) :
    1 ≤ (resolveTick prev track input dt rand).combo ∧
    (resolveTick prev track input dt rand).combo ≤ 10 := by
  unfold resolveTick
  dsimp only
  split_ifs <;> apply processCheckpoints_combo <;>
    first | exact h1 | exact h10 | norm_num

/-- C8 (amended): the combo multiplier stays in `[1, 10]` across every
tick — it starts at 1, gets `min (combo + 1) 10` with its decay timer
reset to 5 on each checkpoint pass, and resets to 1 when the decay timer
runs out; powerup pickups score with the current combo but do not touch it
(see the counterexample). -/
theorem tick_combo_in_range (prev : GameStore) (input : PhysicsInput)
    (dt : ℝ) (rand : ℕ → ℝ) (h1 : 1 ≤ prev.combo) (h10 : prev.combo ≤ 10) :
    1 ≤ (tick prev input dt rand).combo ∧
    (tick prev input dt rand).combo ≤ 10 := by
  unfold tick
  split_ifs with hcd hz hguard
  · exact ⟨h1, h10⟩
  · exact ⟨h1, h10⟩
  · exact ⟨h1, h10⟩
  · cases htr : prev.currentTrack with
    | none => exact ⟨h1, h10⟩
    | some track =>
      unfold tickPlaying
      dsimp only
      split_ifs with hdead hfin
      · exact ⟨h1, h10⟩
      · exact ⟨h1, h10⟩
      · exact resolveTick_combo prev track input dt rand h1 h10

/-- Witness for C8's theorem: the initial store (combo 1) stays in range
after a tick. -/
theorem tick_combo_in_range_witness :
    (1 ≤ emptyStore.combo ∧ emptyStore.combo ≤ 10) ∧
    (1 ≤ (tick emptyStore zeroInput 1 (fun _ => 0)).combo ∧
     (tick emptyStore zeroInput 1 (fun _ => 0)).combo ≤ 10) :=
  ⟨by norm_num [emptyStore],
    tick_combo_in_range emptyStore zeroInput 1 (fun _ => 0)
      (by norm_num [emptyStore]) (by norm_num [emptyStore])⟩

/-! ### C2: lap advance at the finish checkpoint -/

/-- Resolving the checkpoints when the plane triggers an unpassed finish
checkpoint while every other checkpoint is passed: only the finish
checkpoint's flag changes (set on the final lap, cleared otherwise), the
score and combo update once, and the lap counter / finished flag move
according to whether laps remain. -/
theorem processCheckpoints_single_finish (plane : PlaneState)
    (l₁ l₂ : List Checkpoint) (fcp : Checkpoint) (totalLaps : ℕ) (s : CPAcc)
    (hothers : ∀ c ∈ l₁ ++ l₂, c.passed = true)
    (hhit : checkCheckpointCollision plane fcp)
    (hfin : fcp.isFinish = true) :
    processCheckpoints plane (l₁ ++ fcp :: l₂) totalLaps (l₁ ++ fcp :: l₂) s =
      (l₁ ++ (if totalLaps ≤ s.lap then { fcp with passed := true }
          else { fcp with passed := false }) :: l₂,
       { score := s.score + 100 * s.combo, combo := min (s.combo + 1) 10,
         comboTimer := 5,
         lap := if totalLaps ≤ s.lap then s.lap else s.lap + 1,
         finished := if totalLaps ≤ s.lap then true else s.finished }) := by
  have hl₁ : ∀ c ∈ l₁, c.passed = true := fun c hc => hothers c (by simp [hc])
  have hl₂ : ∀ c ∈ l₂, c.passed = true := fun c hc => hothers c (by simp [hc])
  have hevery : fcp.isFinish = true ∧
      ∀ c ∈ l₁ ++ fcp :: l₂, c.id = fcp.id ∨ c.passed = true := by
    refine ⟨hfin, ?_⟩
    intro c hc
    rcases List.mem_append.mp hc with hc1 | hc2
    · exact Or.inr (hl₁ c hc1)
    · rcases List.mem_cons.mp hc2 with rfl | hc3
      · exact Or.inl rfl
      · exact Or.inr (hl₂ c hc3)
  rw [processCheckpoints_append, processCheckpoints_all_passed _ _ _ _ _ hl₁]
  dsimp only
  rw [processCheckpoints]
  dsimp only
  rw [stepCheckpoint, if_pos hhit, if_pos hevery]
  split_ifs with hl
  · dsimp only
    rw [processCheckpoints_all_passed _ _ _ _ _ hl₂]
  · dsimp only
    rw [processCheckpoints_all_passed _ _ _ _ _ hl₂]

/-- The checkpoint/lap/finished outcome of `resolveTick` in the
single-finish-trigger situation, in terms of whether laps remain. -/
theorem resolveTick_finish_trigger (prev : GameStore) (track : Track)
    (input : PhysicsInput) (dt : ℝ) (rand : ℕ → ℝ)
    (l₁ l₂ : List Checkpoint) (fcp : Checkpoint)
    (hcps : track.checkpoints = l₁ ++ fcp :: l₂)
    (hfin : fcp.isFinish = true)
    (hothers : ∀ c ∈ l₁ ++ l₂, c.passed = true)
    (hhit : checkCheckpointCollision (updatePhysics prev.plane input dt
      prev.weather (if prev.plane.activePowerup = some .timeSlow then 0.5 else 1))
      fcp) :
    ((resolveTick prev track input dt rand).checkpoints =
      l₁ ++ (if prev.totalLaps ≤ prev.currentLap then { fcp with passed := true }
        else { fcp with passed := false }) :: l₂) ∧
    ((resolveTick prev track input dt rand).lap =
      if prev.totalLaps ≤ prev.currentLap then prev.currentLap
      else prev.currentLap + 1) ∧
    ((resolveTick prev track input dt rand).finished =
      decide (prev.totalLaps ≤ prev.currentLap)) := by
  unfold resolveTick
  dsimp only
  rw [hcps]
  by_cases ht : prev.comboTimer - dt ≤ 0
  · simp only [ht, if_true]
    rw [processCheckpoints_single_finish _ _ _ _ _ _ hothers hhit hfin]
    refine ⟨rfl, rfl, ?_⟩
    dsimp only
    split_ifs with hl <;> simp [hl]
  · simp only [ht, if_false]
    rw [processCheckpoints_single_finish _ _ _ _ _ _ hothers hhit hfin]
    refine ⟨rfl, rfl, ?_⟩
    dsimp only
    split_ifs with hl <;> simp [hl]

/-- The resolved plane of a tick on a track without obstacles and powerups
is just the physics step's output. -/
theorem resolveTick_plane_no_hazards (prev : GameStore) (track : Track)
    (input : PhysicsInput) (dt : ℝ) (rand : ℕ → ℝ)
    (hobs : track.obstacles = []) (hpus : track.powerups = []) :
    (resolveTick prev track input dt rand).plane =
      updatePhysics prev.plane input dt prev.weather
        (if prev.plane.activePowerup = some .timeSlow then 0.5 else 1) := by
  unfold resolveTick
  rw [hobs, hpus]
  simp only [processObstacles, processPowerups]
  split_ifs <;> first | rfl | simp_all

/-- C2 (amended): when a playing tick triggers an unpassed finish
checkpoint while every other checkpoint is passed (and the resolved plane
survives the tick), then if laps remain the lap counter increments by one,
the state stays `playing`, and the checkpoint flags are unchanged — the
finish checkpoint is written back unpassed but the *other* checkpoints
keep their passed flags (they are not reset); on the final lap the same
trigger marks the race finished and produces a `RaceResult`. -/
theorem finish_checkpoint_lap_advance (prev : GameStore) (track : Track)
    (input : PhysicsInput) (dt : ℝ) (rand : ℕ → ℝ)
    (l₁ l₂ : List Checkpoint) (fcp : Checkpoint)
    (hstate : prev.gameState = .playing) (hpause : prev.showPause = false)
    (htrack : prev.currentTrack = some track)
    (hcps : track.checkpoints = l₁ ++ fcp :: l₂)
    (hfin : fcp.isFinish = true)
    (hothers : ∀ c ∈ l₁ ++ l₂, c.passed = true)
    (hhit : checkCheckpointCollision (updatePhysics prev.plane input dt
      prev.weather (if prev.plane.activePowerup = some .timeSlow then 0.5 else 1))
      fcp)
    (halive : 0 < (resolveTick prev track input dt rand).plane.health) :
    (prev.currentLap < prev.totalLaps →
      (tick prev input dt rand).gameState = .playing ∧
      (tick prev input dt rand).currentLap = prev.currentLap + 1 ∧
      ((tick prev input dt rand).currentTrack.map Track.checkpoints) =
        some (l₁ ++ { fcp with passed := false } :: l₂)) ∧
    (prev.totalLaps ≤ prev.currentLap →
      (tick prev input dt rand).gameState = .finished ∧
      ((tick prev input dt rand).raceResult).isSome = true) := by
  rw [tick_playing_eq prev input dt rand track hstate hpause htrack]
  have hrt := resolveTick_finish_trigger prev track input dt rand l₁ l₂ fcp
    hcps hfin hothers hhit
  unfold tickPlaying
  dsimp only
  rw [if_neg (not_le.mpr halive)]
  constructor
  · intro hlap
    have hnl : ¬ prev.totalLaps ≤ prev.currentLap := by omega
    have hfinished : (resolveTick prev track input dt rand).finished = false := by
      rw [hrt.2.2]
      simp [hnl]
    rw [if_neg (by rw [hfinished]; simp)]
    refine ⟨rfl, ?_, ?_⟩
    · dsimp only
      rw [hrt.2.1, if_neg hnl]
    · simp only [Option.map_some']
      rw [hrt.1, if_neg hnl]
  · intro hlap
    have hfinished : (resolveTick prev track input dt rand).finished = true := by
      rw [hrt.2.2]
      simp [hlap]
    rw [if_pos (by rw [hfinished])]
    exact ⟨rfl, rfl⟩

/-! ### C6: health ≤ 0 crashes on the same tick -/

/-- C6 (amended): whenever the plane's health at the end of a playing
tick's resolution — after the physics step, collision damage, and any
same-tick powerup effects — is ≤ 0, the session transitions to `crashed`
with a `RaceResult` on that very tick.  (The stored plane of a playing
tick is always the resolved plane, so the hypothesis reads it off the tick
result.)  The claim's original phrasing, which tests health before powerup
collection, fails: a repair powerup collected in the same tick can revive
the plane (see the counterexample). -/
theorem health_zero_crashes_same_tick (prev : GameStore)
    (input : PhysicsInput) (dt : ℝ) (rand : ℕ → ℝ) (track : Track)
    (hstate : prev.gameState = .playing) (hpause : prev.showPause = false)
    (htrack : prev.currentTrack = some track)
    (hdead : (tick prev input dt rand).plane.health ≤ 0) :
    (tick prev input dt rand).gameState = .crashed ∧
    ((tick prev input dt rand).raceResult).isSome = true := by
  rw [tick_playing_eq prev input dt rand track hstate hpause htrack] at hdead ⊢
  rw [tickPlaying_plane] at hdead
  unfold tickPlaying
  dsimp only
  rw [if_pos hdead]
  exact ⟨rfl, rfl⟩

/-! ### Concrete tick scenarios -/

noncomputable section

/-- A nitro powerup placed exactly where the cruising plane ends its
physics step. -/
def nitroPowerup : Powerup :=
  { id := 0, kind := .nitro, position := vec3 0 49.04252 79.412,
    collected := false, respawnTimer := 0, active := true }

/-- A track with no checkpoints or obstacles and one collectible nitro. -/
def comboTrack : Track :=
  { id := "combo_demo", checkpoints := [], obstacles := [],
    powerups := [nitroPowerup], startPosition := vec3 0 50 0,
    weather := .clear, laps := 3, parTime := 60,
    starTimes := circularStarTimes 60 }

/-- Mid-race store: playing, combo 2 with 3 s of decay left. -/
def comboStore : GameStore :=
  { emptyStore with
    gameState := .playing, currentTrack := some comboTrack,
    plane := cruisePlane 100, combo := 2, comboTimer := 3,
    tracks := [comboTrack] }

/-- The finish checkpoint, placed exactly where the cruising plane ends
its physics step. -/
def finishCp : Checkpoint :=
  { id := 0, position := vec3 0 49.04252 79.412, radius := 15,
    passed := false, isFinish := true, nextDirection := vec3 0 0 1 }

/-- A second, already-passed checkpoint elsewhere on the track. -/
def passedCp : Checkpoint :=
  { id := 1, position := vec3 100 40 0, radius := 15, passed := true,
    isFinish := false, nextDirection := vec3 0 0 1 }

/-- A two-checkpoint track whose finish the plane is about to re-trigger. -/
def lapTrack : Track :=
  { id := "lap_demo", checkpoints := [finishCp, passedCp], obstacles := [],
    powerups := [], startPosition := vec3 0 50 0, weather := .clear,
    laps := 3, parTime := 60, starTimes := circularStarTimes 60 }

/-- Store on lap 2 of 3 (scenario C's situation). -/
def lapStore : GameStore :=
  { emptyStore with
    gameState := .playing, currentTrack := some lapTrack,
    plane := cruisePlane 100, currentLap := 2, totalLaps := 3,
    comboTimer := 5, tracks := [lapTrack] }

/-- The same situation on lap 1 of 3 (used by the witness). -/
def lapStoreW : GameStore := { lapStore with currentLap := 1 }

/-- A static obstacle at the cruising plane's end position. -/
def crashObstacle : Obstacle :=
  { id := 0, position := vec3 0 49.04252 79.412, size := vec3 5 5 5,
    kind := .static, movePattern := none, health := 2, destroyed := false }

/-- A repair powerup at the cruising plane's end position. -/
def repairPowerup : Powerup :=
  { id := 0, kind := .repair, position := vec3 0 49.04252 79.412,
    collected := false, respawnTimer := 0, active := true }

/-- A track with a lethal obstacle and a repair powerup at the same spot. -/
def reviveTrack : Track :=
  { id := "revive_demo", checkpoints := [], obstacles := [crashObstacle],
    powerups := [repairPowerup], startPosition := vec3 0 50 0,
    weather := .clear, laps := 3, parTime := 60,
    starTimes := circularStarTimes 60 }

/-- Store at 10 health about to hit the obstacle and the repair. -/
def reviveStore : GameStore :=
  { emptyStore with
    gameState := .playing, currentTrack := some reviveTrack,
    plane := cruisePlane 10, tracks := [reviveTrack] }

/-- The same lethal obstacle with no repair on the track. -/
def crashTrack : Track := { reviveTrack with id := "crash_demo", powerups := [] }

/-- Store at 10 health about to hit the obstacle, with no repair around. -/
def crashStore : GameStore :=
  { reviveStore with currentTrack := some crashTrack, tracks := [crashTrack] }

end

set_option maxHeartbeats 3000000 in
/-- Counterexample for C8 as stated: a tick in which the only event is a
powerup pickup.  The pickup is scored with the current combo
(`score = 0 + 50 × 2`), but the combo stays 2 instead of incrementing to 3
and its decay timer continues to run down (2 = 3 - dt) instead of
resetting to the 5-second window: powerup pickups do not touch the combo. -/
theorem powerup_pickup_leaves_combo :
    ((tick comboStore zeroInput 1 (fun _ => 0)).currentTrack.map
        (fun t => t.powerups.map (fun pu => pu.collected))) = some [true] ∧
    (tick comboStore zeroInput 1 (fun _ => 0)).score = 100 ∧
    (tick comboStore zeroInput 1 (fun _ => 0)).combo = 2 ∧
    (tick comboStore zeroInput 1 (fun _ => 0)).comboTimer = 2 := by
  have hplane : updatePhysics comboStore.plane zeroInput 1 comboStore.weather
      (if comboStore.plane.activePowerup = some PowerupType.timeSlow then 0.5
        else 1) = cruisedPlane 100 := updatePhysics_cruise 100
  have hrt : resolveTick comboStore comboTrack zeroInput 1 (fun _ => 0) =
      { plane := { cruisedPlane 100 with
          activePowerup := some PowerupType.nitro, powerupTimer := 3 },
        checkpoints := [], obstacles := [],
        powerups := [{ nitroPowerup with collected := true, respawnTimer := 1 }],
        score := 100, combo := 2, comboTimer := 2, lap := 1,
        finished := false } := by
    unfold resolveTick
    dsimp only
    rw [hplane]
    norm_num +decide [comboStore, emptyStore, comboTrack, nitroPowerup,
      processCheckpoints, processObstacles, processPowerups, respawnStep,
      checkPowerupCollision, applyPowerupToPlane, powerupDuration, distVec3,
      subVec3, lengthVec3, vec3, cruisedPlane, Real.sqrt_zero,
      decide_eq_true_eq, ResolveOut.mk.injEq, PlaneState.mk.injEq,
      Powerup.mk.injEq, Vec3.mk.injEq]
  rw [tick_playing_eq comboStore zeroInput 1 (fun _ => 0) comboTrack rfl rfl rfl]
  unfold tickPlaying
  rw [hrt]
  norm_num +decide [comboStore, emptyStore, comboTrack, nitroPowerup,
    cruisedPlane, Option.map_some']

set_option maxHeartbeats 3000000 in
/-- Counterexample for C2 as stated: scenario C's tick (finish checkpoint
triggered on lap 2 of 3, the other checkpoint passed).  The lap counter
becomes 3 and the state stays `playing`, but the checkpoint flags end as
`[false, true]` — only the finish checkpoint is unpassed, the other
checkpoint is NOT reset to unpassed as the claim demands. -/
theorem lap_advance_keeps_other_checkpoints :
    (tick lapStore zeroInput 1 (fun _ => 0)).currentLap = 3 ∧
    (tick lapStore zeroInput 1 (fun _ => 0)).gameState = .playing ∧
    ((tick lapStore zeroInput 1 (fun _ => 0)).currentTrack.map
        (fun t => t.checkpoints.map (fun c => c.passed))) = some [false, true] := by
  have hplane : updatePhysics lapStore.plane zeroInput 1 lapStore.weather
      (if lapStore.plane.activePowerup = some PowerupType.timeSlow then 0.5
        else 1) = cruisedPlane 100 := updatePhysics_cruise 100
  have hrt : resolveTick lapStore lapTrack zeroInput 1 (fun _ => 0) =
      { plane := cruisedPlane 100,
        checkpoints := [finishCp, passedCp], obstacles := [], powerups := [],
        score := 100, combo := 2, comboTimer := 5, lap := 3,
        finished := false } := by
    unfold resolveTick
    dsimp only
    rw [hplane]
    norm_num +decide [lapStore, emptyStore, lapTrack, finishCp, passedCp,
      processCheckpoints, stepCheckpoint, processObstacles, processPowerups,
      checkCheckpointCollision, distVec3, subVec3, lengthVec3, vec3,
      cruisedPlane, Real.sqrt_zero, decide_eq_true_eq, ResolveOut.mk.injEq,
      Checkpoint.mk.injEq, Vec3.mk.injEq]
  rw [tick_playing_eq lapStore zeroInput 1 (fun _ => 0) lapTrack rfl rfl rfl]
  unfold tickPlaying
  rw [hrt]
  norm_num +decide [lapStore, emptyStore, lapTrack, finishCp, passedCp,
    cruisedPlane, Option.map_some']

/-- Witness for C2's theorem: the same trigger on lap 1 of 3 advances the
lap to 2, stays `playing`, and leaves the checkpoint list with only the
finish flag rewritten. -/
theorem finish_checkpoint_lap_advance_witness :
    (lapStoreW.currentLap < lapStoreW.totalLaps ∧
     0 < (resolveTick lapStoreW lapTrack zeroInput 1 (fun _ => 0)).plane.health) ∧
    ((tick lapStoreW zeroInput 1 (fun _ => 0)).gameState = .playing ∧
     (tick lapStoreW zeroInput 1 (fun _ => 0)).currentLap =
       lapStoreW.currentLap + 1 ∧
     ((tick lapStoreW zeroInput 1 (fun _ => 0)).currentTrack.map
        Track.checkpoints) =
       some ([] ++ { finishCp with passed := false } :: [passedCp])) := by
  have hplane : updatePhysics lapStoreW.plane zeroInput 1 lapStoreW.weather
      (if lapStoreW.plane.activePowerup = some PowerupType.timeSlow then 0.5
        else 1) = cruisedPlane 100 := updatePhysics_cruise 100
  have halive :
      0 < (resolveTick lapStoreW lapTrack zeroInput 1 (fun _ => 0)).plane.health := by
    rw [resolveTick_plane_no_hazards _ _ _ _ _ rfl rfl, hplane]
    norm_num [cruisedPlane]
  have hothers : ∀ c ∈ ([] : List Checkpoint) ++ [passedCp], c.passed = true := by
    intro c hc
    simp only [List.nil_append, List.mem_singleton] at hc
    subst hc
    rfl
  have hhit : checkCheckpointCollision (updatePhysics lapStoreW.plane zeroInput
      1 lapStoreW.weather (if lapStoreW.plane.activePowerup =
        some PowerupType.timeSlow then 0.5 else 1)) finishCp := by
    refine ⟨rfl, ?_⟩
    rw [hplane]
    norm_num [cruisedPlane, finishCp, distVec3, subVec3, lengthVec3, vec3,
      Real.sqrt_zero]
  exact ⟨⟨by norm_num [lapStoreW, lapStore, emptyStore], halive⟩,
    (finish_checkpoint_lap_advance lapStoreW lapTrack zeroInput 1 (fun _ => 0)
      [] [passedCp] finishCp rfl rfl rfl rfl rfl hothers hhit halive).1
      (by norm_num [lapStoreW, lapStore, emptyStore])⟩

set_option maxHeartbeats 3000000 in
/-- Counterexample for C6 as stated: the physics step leaves the plane
(health 10) overlapping a non-destructible obstacle, so collision damage
drops health to 0 — yet the tick ends still `playing` with health 100,
because a repair powerup collected later in the same tick revives the
plane before the crash check runs. -/
theorem zero_health_revived_by_repair :
    updatePhysics reviveStore.plane zeroInput 1 reviveStore.weather 1 =
      cruisedPlane 10 ∧
    checkObstacleCollision (cruisedPlane 10) crashObstacle ∧
    (applyDamage (cruisedPlane 10) 20).health = 0 ∧
    (tick reviveStore zeroInput 1 (fun _ => 0)).gameState = .playing ∧
    (tick reviveStore zeroInput 1 (fun _ => 0)).plane.health = 100 := by
  have hplane : updatePhysics reviveStore.plane zeroInput 1 reviveStore.weather
      (if reviveStore.plane.activePowerup = some PowerupType.timeSlow then 0.5
        else 1) = cruisedPlane 10 := updatePhysics_cruise 10
  have hrt : resolveTick reviveStore reviveTrack zeroInput 1 (fun _ => 0) =
      { plane := { cruisedPlane 10 with health := 100, damage := 0 },
        checkpoints := [], obstacles := [crashObstacle],
        powerups := [{ repairPowerup with collected := true, respawnTimer := 1 }],
        score := 50, combo := 1, comboTimer := 0, lap := 1,
        finished := false } := by
    unfold resolveTick
    dsimp only
    rw [hplane]
    norm_num +decide [reviveStore, emptyStore, reviveTrack, crashObstacle,
      repairPowerup, processCheckpoints, processObstacles, stepObstacle,
      processPowerups, respawnStep, checkObstacleCollision,
      checkPowerupCollision, applyDamage, applyPowerupToPlane,
      powerupDuration, distVec3, subVec3, lengthVec3, vec3, cruisedPlane,
      Real.sqrt_zero, decide_eq_true_eq, ResolveOut.mk.injEq,
      PlaneState.mk.injEq, Powerup.mk.injEq, Obstacle.mk.injEq, Vec3.mk.injEq]
  refine ⟨updatePhysics_cruise 10, ?_, ?_, ?_, ?_⟩
  · refine ⟨rfl, ?_, ?_, ?_, ?_⟩ <;>
      norm_num +decide [cruisedPlane, crashObstacle, vec3]
  · norm_num +decide [applyDamage, cruisedPlane]
  · rw [tick_playing_eq reviveStore zeroInput 1 (fun _ => 0) reviveTrack
      rfl rfl rfl]
    unfold tickPlaying
    rw [hrt]
    norm_num +decide [cruisedPlane]
  · rw [tick_playing_eq reviveStore zeroInput 1 (fun _ => 0) reviveTrack
      rfl rfl rfl]
    unfold tickPlaying
    rw [hrt]
    norm_num +decide [cruisedPlane]

set_option maxHeartbeats 3000000 in
/-- Witness for C6's theorem: the same lethal obstacle hit with no repair
around leaves resolved health 0, and the tick duly ends `crashed` with a
race result. -/
theorem health_zero_crashes_same_tick_witness :
    (crashStore.gameState = GameState.playing ∧ crashStore.showPause = false ∧
     crashStore.currentTrack = some crashTrack ∧
     (tick crashStore zeroInput 1 (fun _ => 0)).plane.health ≤ 0) ∧
    ((tick crashStore zeroInput 1 (fun _ => 0)).gameState = .crashed ∧
     ((tick crashStore zeroInput 1 (fun _ => 0)).raceResult).isSome = true) := by
  have hplane : updatePhysics crashStore.plane zeroInput 1 crashStore.weather
      (if crashStore.plane.activePowerup = some PowerupType.timeSlow then 0.5
        else 1) = cruisedPlane 10 := updatePhysics_cruise 10
  have hpl : (resolveTick crashStore crashTrack zeroInput 1
      (fun _ => 0)).plane = { cruisedPlane 10 with health := 0, damage := 1 } := by
    unfold resolveTick
    dsimp only
    rw [hplane]
    norm_num +decide [crashStore, reviveStore, emptyStore, crashTrack,
      reviveTrack, crashObstacle, processCheckpoints, processObstacles,
      stepObstacle, processPowerups, checkObstacleCollision, applyDamage,
      vec3, cruisedPlane, decide_eq_true_eq, PlaneState.mk.injEq,
      Vec3.mk.injEq]
  have hdead : (tick crashStore zeroInput 1 (fun _ => 0)).plane.health ≤ 0 := by
    rw [tick_playing_eq crashStore zeroInput 1 (fun _ => 0) crashTrack
      rfl rfl rfl, tickPlaying_plane, hpl]
  exact ⟨⟨rfl, rfl, rfl, hdead⟩,
    health_zero_crashes_same_tick crashStore zeroInput 1 (fun _ => 0)
      crashTrack rfl rfl rfl hdead⟩

end EpsteinJets
